import Mathlib

set_option maxRecDepth 8192

/-!
Verification development for the working-hours data-access module (`src/kz.py`).

The module defines, at top level, two successive classes both named
`WorkingHourManager`:
  * the first ("eager/instance-scoped") opens one connection in `__init__`
    and reuses it for all operations;
  * the second ("lazy/call-scoped") opens, commits and closes a connection
    around each operation via the `prepare_connection` decorator.

We embed both classes, the `DbManager` connection provider, and the SQL
statements they issue.  The backing store itself is an external collaborator
(the in-repo `Connection` is a print stub), so its relational semantics are
modelled from the specification: schema `working_log(employee_id,
time_in_seconds)` and `employee_rates(employee_id, hour_rate)`, parameterized
execution, `fetchone` returning the first result row or an absence marker,
and SQL aggregate semantics (`SUM` over zero rows is NULL).

Connection lifecycle is made observable through a trace of events (opened /
executed / committed / closed), each tagged with the connection's identity,
so that resource-management claims (one query per call, release on exit
paths, connection reuse) become statements about traces.
-/

deriving instance DecidableEq for Except

/-- A SQL value in a result column: `none` is SQL NULL. -/
abbrev SqlVal := Option Int

/-- Python-level failures that the manager's operations can surface:
`queryError` for a statement the store rejects, `typeError` for a Python
type error (unpacking a non-tuple, or multiplying `None` by a number). -/
inductive PyErr
  | queryError
  | typeError
  deriving Repr, DecidableEq

/-- A row of the `working_log` table (spec schema:
`working_log(employee_id, time_in_seconds)`). -/
structure WorkingLogRow where
  employee_id : Int
  time_in_seconds : Int
  deriving Repr, DecidableEq

/-- A row of the `employee_rates` table (spec schema:
`employee_rates(employee_id, hour_rate)`). -/
structure RateRow where
  employee_id : Int
  hour_rate : Int
  deriving Repr, DecidableEq

/-- Modelled from the spec: the collaborator store's state, holding the two
tables named in §6 of the spec (the in-repo `Connection` class is a print
stub, so the store is not in src/). -/
structure Database where
  working_log : List WorkingLogRow
  employee_rates : List RateRow
  deriving Repr, DecidableEq

/-- The INSERT statement issued by `log` (src/kz.py lines 67 and 131),
transcribed verbatim. -/
def logQuery : String :=
  "INSERT INTO working_log (employee_id, time) VALUES (?, ?)"

/-- The aggregate SELECT issued by `total` (src/kz.py lines 77 and 142),
transcribed verbatim. -/
def totalQuery : String :=
  "SELECT SUM(time_in_seconds)*60*60 FROM working_log WHERE employee_id = ? LIMIT 1"

/-- The cross-join SELECT issued by `salary` (src/kz.py lines 86-90 and
151-155), transcribed verbatim: Python concatenates the adjacent string
literals, which is why some clause boundaries lack a space. -/
def salaryQuery : String :=
  "SELECT X.sum, Y.hour_rate" ++
  "FROM (SELECT sum(time_in_seconds) as 'sum' FROM working_log " ++
  "WHERE employee_id = ? and time_in_seconds >= ? and time_in_seconds <= ?" ++
  "LIMIT 1" ++
  ") as X, (SELECT hour_rate as 'hour_rate' FROM employee_rates WHERE employee_id = ? LIMIT 1) as Y"

/-- Modelled from the spec: the column list of the `working_log` table (§6). -/
def workingLogColumns : List String := ["employee_id", "time_in_seconds"]

/-- The characters strictly after the first occurrence of `c`. -/
def afterChar (c : Char) : List Char → List Char
  | [] => []
  | x :: xs => if x = c then xs else afterChar c xs

/-- The characters strictly before the first occurrence of `c`. -/
def beforeChar (c : Char) : List Char → List Char
  | [] => []
  | x :: xs => if x = c then [] else x :: beforeChar c xs

/-- Split a character list on commas. -/
def splitOnComma : List Char → List (List Char)
  | [] => [[]]
  | x :: xs =>
    if x = ',' then [] :: splitOnComma xs
    else
      match splitOnComma xs with
      | [] => [[x]]
      | g :: gs => (x :: g) :: gs

/-- Strip leading and trailing spaces. -/
def trimSpaces (cs : List Char) : List Char :=
  ((cs.dropWhile (fun a => a = ' ')).reverse.dropWhile (fun a => a = ' ')).reverse

/-- The column list named by an INSERT statement: the text between the first
pair of parentheses, split on commas, with surrounding spaces stripped. -/
def insertColumnList (q : String) : List String :=
  (splitOnComma (beforeChar ')' (afterChar '(' q.toList))).map
    (fun g => String.mk (trimSpaces g))

/-- Modelled from the spec: executing the INSERT against the store.  An
INSERT whose column list matches the `working_log` schema appends the row;
naming a column the schema does not have is a malformed statement and fails
with a `QueryError` (spec §4.2). -/
def execInsert (db : Database) (cols : List String) (eid t : Int) :
    Except PyErr Database :=
  if cols = workingLogColumns then
    .ok { db with working_log := db.working_log ++ [⟨eid, t⟩] }
  else
    .error .queryError

/-- Modelled from the spec: SQL `SUM` over a column of values — NULL when
there are no rows, the sum otherwise. -/
def sqlSum : List Int → SqlVal
  | [] => none
  | ts => some ts.sum

/-- Modelled from the spec: the single result value of `totalQuery` against
the store.  `SUM(time_in_seconds)` over the rows of the bound employee is
NULL when that employee has no rows, and NULL propagates through the
`*60*60` factor; otherwise the sum is multiplied by 60 and by 60 again. -/
def totalQueryRow (db : Database) (eid : Int) : SqlVal :=
  ((sqlSum ((db.working_log.filter (fun r => r.employee_id == eid)).map
      (fun r => r.time_in_seconds))).map (fun s => s * 60 * 60))

/-- Modelled from the spec: the `X` subquery of `salaryQuery` — the sum of
`time_in_seconds` over the bound employee's rows with `time_in_seconds`
between the two bound range parameters inclusively; NULL when no row
matches. -/
def sumInRange (db : Database) (eid dfrom dto : Int) : SqlVal :=
  sqlSum ((db.working_log.filter (fun r =>
      r.employee_id == eid &&
      decide (dfrom ≤ r.time_in_seconds) &&
      decide (r.time_in_seconds ≤ dto))).map (fun r => r.time_in_seconds))

/-- Modelled from the spec: the `Y` subquery of `salaryQuery` — the current
`hour_rate` of the bound employee, absent when the employee has no rate
row. -/
def hourRateOf (db : Database) (eid : Int) : Option Int :=
  ((db.employee_rates.filter (fun r => r.employee_id == eid)).head?).map
    (fun r => r.hour_rate)

/-- Modelled from the spec: `fetchone` on the cross join `X, Y`.  `X` always
has exactly one row (an ungrouped aggregate), `Y` has one row when the rate
exists and none otherwise; the cross join therefore has one row exactly when
the rate exists, and `fetchone` returns it, or the absence marker. -/
def salaryFetch (db : Database) (eid dfrom dto : Int) :
    Option (SqlVal × Int) :=
  (hourRateOf db eid).map (fun rate => (sumInRange db eid dfrom dto, rate))

/-- The Python computation `total_time * hour_rate` after unpacking
`fetchone()` (src/kz.py lines 84-100): unpacking the absence marker raises a
type error, and so does multiplying a NULL (`None`) sum by the rate. -/
def salaryCompute (db : Database) (eid dfrom dto : Int) : Except PyErr Int :=
  match salaryFetch db eid dfrom dto with
  | none => .error .typeError
  | some (none, _) => .error .typeError
  | some (some s, rate) => .ok (s * rate)

/-- An observable event on a connection capability, tagged with the
connection's identity. -/
inductive ConnEvent
  | opened (conn : Nat)
  | executed (conn : Nat) (query : String) (params : List Int)
  | committed (conn : Nat)
  | closed (conn : Nat)
  deriving Repr, DecidableEq

/-- The world threaded through every operation: the store's state, the next
fresh connection identity, and the trace of connection events so far. -/
structure World where
  db : Database
  nextConn : Nat
  trace : List ConnEvent
  deriving Repr, DecidableEq

/-- `DbManager.open_connection` (src/kz.py lines 11-13): produces a fresh
connection capability; the trace records which connection was opened. -/
def open_connection (w : World) : Nat × World :=
  (w.nextConn,
   { w with nextConn := w.nextConn + 1,
            trace := w.trace ++ [.opened w.nextConn] })

/-- The eager/instance-scoped manager (first `WorkingHourManager`,
src/kz.py lines 53-100): holds the connection opened at construction and
the bound employee identifier. -/
structure WorkingHourManagerV1 where
  _connection : Nat
  _employee_id : Int
  deriving Repr, DecidableEq

/-- The `employee_id` read-only property (src/kz.py lines 60-62). -/
def WorkingHourManagerV1.employee_id (m : WorkingHourManagerV1) : Int :=
  m._employee_id

/-- `WorkingHourManager.__init__` of the eager variant (src/kz.py lines
56-58): opens a connection via the class's `DbManager` and stores it with
the employee identifier. -/
def v1_init (eid : Int) (w : World) : WorkingHourManagerV1 × World :=
  let (c, w1) := open_connection w
  (⟨c, eid⟩, w1)

/-- `log` of the eager variant (src/kz.py lines 64-72): one `execute` of the
INSERT with params `(employee_id, time)` on the instance connection. -/
def v1_log (m : WorkingHourManagerV1) (t : Int) (w : World) :
    Except PyErr Unit × World :=
  let w1 := { w with trace :=
    w.trace ++ [.executed m._connection logQuery [m.employee_id, t]] }
  match execInsert w.db (insertColumnList logQuery) m.employee_id t with
  | .ok db' => (.ok (), { w1 with db := db' })
  | .error e => (.error e, w1)

/-- `total` of the eager variant (src/kz.py lines 74-80): one `execute` of
the aggregate SELECT with param `(employee_id,)`, returning `fetchone()` of
the single aggregate row unmodified (the code deliberately applies no `[0]`
and no default). -/
def v1_total (m : WorkingHourManagerV1) (w : World) :
    Except PyErr SqlVal × World :=
  let w1 := { w with trace :=
    w.trace ++ [.executed m._connection totalQuery [m.employee_id]] }
  (.ok (totalQueryRow w.db m.employee_id), w1)

/-- `salary` of the eager variant (src/kz.py lines 82-100): one `execute` of
the cross-join SELECT with params `(employee_id, date_from, date_to,
employee_id)`, then unpack `fetchone()` and return `total_time *
hour_rate`. -/
def v1_salary (m : WorkingHourManagerV1) (dfrom dto : Int) (w : World) :
    Except PyErr Int × World :=
  let w1 := { w with trace :=
    w.trace ++ [.executed m._connection salaryQuery
      [m.employee_id, dfrom, dto, m.employee_id]] }
  (salaryCompute w.db m.employee_id dfrom dto, w1)

/-- The lazy/call-scoped manager (second `WorkingHourManager`, src/kz.py
lines 104-165): `__init__` stores `connection = None`; the decorator assigns
a fresh connection before each operation's body runs. -/
structure WorkingHourManagerV2 where
  connection : Option Nat
  _employee_id : Int
  deriving Repr, DecidableEq

/-- The `employee_id` read-only property of the lazy variant (src/kz.py
lines 123-125). -/
def WorkingHourManagerV2.employee_id (m : WorkingHourManagerV2) : Int :=
  m._employee_id

/-- `WorkingHourManager.__init__` of the lazy variant (src/kz.py lines
118-121): no connection is opened; `connection` is set to `None`. -/
def v2_init (eid : Int) : WorkingHourManagerV2 :=
  ⟨none, eid⟩

/-- The `prepare_connection` decorator (src/kz.py lines 107-116): opens a
connection, assigns it to the object, runs the wrapped body, then commits
and closes and returns the body's result.  There is no try/finally, so when
the body fails the error propagates and the commit and close lines are
skipped. -/
def prepare_connection {α : Type}
    (body : WorkingHourManagerV2 → World → Except PyErr α × World)
    (m : WorkingHourManagerV2) (w : World) :
    Except PyErr α × WorkingHourManagerV2 × World :=
  let (c, w1) := open_connection w
  let m1 := { m with connection := some c }
  match body m1 w1 with
  | (.ok r, w2) =>
      (.ok r, m1, { w2 with trace := w2.trace ++ [.committed c, .closed c] })
  | (.error e, w2) => (.error e, m1, w2)

/-- The undecorated body of the lazy `log` (src/kz.py lines 128-136): one
`execute` of the INSERT on `self.connection`.  Reading `self.connection`
while it is still `None` would be a Python attribute error, modelled as a
type error; the decorator always assigns a connection first. -/
def v2_log_body (t : Int) (m : WorkingHourManagerV2) (w : World) :
    Except PyErr Unit × World :=
  match m.connection with
  | none => (.error .typeError, w)
  | some c =>
    let w1 := { w with trace :=
      w.trace ++ [.executed c logQuery [m.employee_id, t]] }
    match execInsert w.db (insertColumnList logQuery) m.employee_id t with
    | .ok db' => (.ok (), { w1 with db := db' })
    | .error e => (.error e, w1)

/-- The undecorated body of the lazy `total` (src/kz.py lines 139-145). -/
def v2_total_body (m : WorkingHourManagerV2) (w : World) :
    Except PyErr SqlVal × World :=
  match m.connection with
  | none => (.error .typeError, w)
  | some c =>
    let w1 := { w with trace :=
      w.trace ++ [.executed c totalQuery [m.employee_id]] }
    (.ok (totalQueryRow w.db m.employee_id), w1)

/-- The undecorated body of the lazy `salary` (src/kz.py lines 148-165). -/
def v2_salary_body (dfrom dto : Int) (m : WorkingHourManagerV2) (w : World) :
    Except PyErr Int × World :=
  match m.connection with
  | none => (.error .typeError, w)
  | some c =>
    let w1 := { w with trace :=
      w.trace ++ [.executed c salaryQuery
        [m.employee_id, dfrom, dto, m.employee_id]] }
    (salaryCompute w.db m.employee_id dfrom dto, w1)

/-- The decorated lazy `log` (src/kz.py lines 127-136). -/
def v2_log (t : Int) (m : WorkingHourManagerV2) (w : World) :
    Except PyErr Unit × WorkingHourManagerV2 × World :=
  prepare_connection (v2_log_body t) m w

/-- The decorated lazy `total` (src/kz.py lines 138-145). -/
def v2_total (m : WorkingHourManagerV2) (w : World) :
    Except PyErr SqlVal × WorkingHourManagerV2 × World :=
  prepare_connection v2_total_body m w

/-- The decorated lazy `salary` (src/kz.py lines 147-165). -/
def v2_salary (dfrom dto : Int) (m : WorkingHourManagerV2) (w : World) :
    Except PyErr Int × WorkingHourManagerV2 × World :=
  prepare_connection (v2_salary_body dfrom dto) m w

/-- Is this event the opening of a connection? -/
def ConnEvent.isOpen : ConnEvent → Bool
  | .opened _ => true
  | _ => false

/-- Is this event the execution of a query? -/
def ConnEvent.isExec : ConnEvent → Bool
  | .executed _ _ _ => true
  | _ => false

/-- Is this event a commit? -/
def ConnEvent.isCommit : ConnEvent → Bool
  | .committed _ => true
  | _ => false

/-- Is this event the closing of a connection? -/
def ConnEvent.isClose : ConnEvent → Bool
  | .closed _ => true
  | _ => false

/-- The events a computation appended to the trace, given the world before
and the world after (every operation only ever appends to the trace). -/
def traceDelta (w w' : World) : List ConnEvent :=
  w'.trace.drop w.trace.length

/-- How many events of the trace satisfy the predicate. -/
def eventCount (p : ConnEvent → Bool) (tr : List ConnEvent) : Nat :=
  (tr.filter p).length

/-- Does every `executed` event of the trace run on connection `c`? -/
def execsOnConn (c : Nat) (tr : List ConnEvent) : Bool :=
  tr.all (fun e => match e with
    | .executed c' _ _ => c' == c
    | _ => true)

/-- Does this event, when it executes one of the three statements of the
module, bind `eid` in every employee-identifier parameter position (the
single position for the INSERT and the aggregate SELECT, the first and the
fourth position for the cross-join SELECT)? -/
def bindsEmployee (eid : Int) : ConnEvent → Bool
  | .executed _ q ps =>
      if q == salaryQuery then
        match ps with
        | e1 :: _ :: _ :: e4 :: _ => e1 == eid && e4 == eid
        | _ => false
      else
        match ps with
        | e1 :: _ => e1 == eid
        | _ => false
  | _ => true

/-- One of the manager's three operations, with its arguments. -/
inductive Op
  | log (t : Int)
  | total
  | salary (dfrom dto : Int)
  deriving Repr, DecidableEq

/-- Run one operation on the eager manager (results discarded; the eager
manager object itself never changes, its fields being assigned only in
`__init__`). -/
def v1_step (m : WorkingHourManagerV1) (w : World) : Op → World
  | .log t => (v1_log m t w).2
  | .total => (v1_total m w).2
  | .salary dfrom dto => (v1_salary m dfrom dto w).2

/-- Run a sequence of operations on the eager manager. -/
def v1_run (m : WorkingHourManagerV1) (w : World) : List Op → World
  | [] => w
  | op :: ops => v1_run m (v1_step m w op) ops

/-- Run one operation on the lazy manager, keeping the (mutated) manager. -/
def v2_step (s : WorkingHourManagerV2 × World) : Op → WorkingHourManagerV2 × World
  | .log t => (v2_log t s.1 s.2).2
  | .total => (v2_total s.1 s.2).2
  | .salary dfrom dto => (v2_salary dfrom dto s.1 s.2).2

/-- Run a sequence of operations on the lazy manager. -/
def v2_run (s : WorkingHourManagerV2 × World) : List Op → WorkingHourManagerV2 × World
  | [] => s
  | op :: ops => v2_run (v2_step s op) ops

/-- Which of the two class definitions a module-level name can refer to. -/
inductive ManagerVariant
  | eager
  | lazy
  deriving Repr, DecidableEq

/-- The module's top-level `class WorkingHourManager` statements in source
order (src/kz.py lines 53 and 104), each binding the module-scope name on
the left to the class value on the right. -/
def managerClassStatements : List (String × ManagerVariant) :=
  [("WorkingHourManager", ManagerVariant.eager),
   ("WorkingHourManager", ManagerVariant.lazy)]

/-- Python module-scope name resolution after the module body has run: each
`class` statement rebinds its name, so a lookup sees the last binding of
that name, if any. -/
def moduleLookup (n : String) : Option ManagerVariant :=
  ((managerClassStatements.filter (fun p => p.1 == n)).getLast?).map
    (fun p => p.2)

/-- Spec-side reformulation used to check `salary`'s aggregate: the total of
`time_in_seconds` over the bound employee's rows lying in the inclusive
range, written as a direct fold over the `working_log` table with the
spec's wording (filter by the bound employee, bounds inclusive). -/
def rangeTimeSpec (db : Database) (eid dfrom dto : Int) : Int :=
  db.working_log.foldr
    (fun r acc =>
      if r.employee_id = eid ∧ dfrom ≤ r.time_in_seconds ∧ r.time_in_seconds ≤ dto
      then r.time_in_seconds + acc
      else acc) 0

/-- A store with no rows at all. -/
def emptyDb : Database := ⟨[], []⟩

/-- A world over the empty store, before any connection was opened. -/
def emptyWorld : World := ⟨emptyDb, 0, []⟩

/-- A store where employee 1 has an hourly rate of 20 but no work-log
rows. -/
def rateOnlyDb : Database := ⟨[], [⟨1, 20⟩]⟩

/-- A world over `rateOnlyDb`, before any connection was opened. -/
def rateOnlyWorld : World := ⟨rateOnlyDb, 0, []⟩

/-- A store where employee 1 has one work-log row of 3600 seconds. -/
def logged3600Db : Database := ⟨[⟨1, 3600⟩], []⟩

/-- A world over `logged3600Db`, before any connection was opened. -/
def logged3600World : World := ⟨logged3600Db, 0, []⟩

/-- A store where employee 1 has one work-log row of 7200 seconds and an
hourly rate of 20 (the spec's concrete salary scenario). -/
def salaryScenarioDb : Database := ⟨[⟨1, 7200⟩], [⟨1, 20⟩]⟩

/-- A world over `salaryScenarioDb`, before any connection was opened. -/
def salaryScenarioWorld : World := ⟨salaryScenarioDb, 0, []⟩

/-! ### Computation lemmas about the embedded operations -/

theorem insertColumnList_logQuery :
    insertColumnList logQuery = ["employee_id", "time"] := by decide

theorem execInsert_log (db : Database) (eid t : Int) :
    execInsert db (insertColumnList logQuery) eid t
      = Except.error PyErr.queryError := by
  rw [insertColumnList_logQuery]
  unfold execInsert
  rw [if_neg (by decide)]

theorem traceDelta_of_append {w w' : World} {es : List ConnEvent}
    (h : w'.trace = w.trace ++ es) : traceDelta w w' = es := by
  unfold traceDelta
  rw [h]
  exact List.drop_left _ _

theorem v1_log_eq (m : WorkingHourManagerV1) (t : Int) (w : World) :
    v1_log m t w =
      (Except.error PyErr.queryError,
       { w with trace := w.trace ++
          [ConnEvent.executed m._connection logQuery [m._employee_id, t]] }) := by
  unfold v1_log
  rw [execInsert_log]
  rfl

theorem v1_total_eq (m : WorkingHourManagerV1) (w : World) :
    v1_total m w =
      (Except.ok (totalQueryRow w.db m._employee_id),
       { w with trace := w.trace ++
          [ConnEvent.executed m._connection totalQuery [m._employee_id]] }) := rfl

theorem v1_salary_eq (m : WorkingHourManagerV1) (dfrom dto : Int) (w : World) :
    v1_salary m dfrom dto w =
      (salaryCompute w.db m._employee_id dfrom dto,
       { w with trace := w.trace ++
          [ConnEvent.executed m._connection salaryQuery
            [m._employee_id, dfrom, dto, m._employee_id]] }) := rfl

theorem v2_log_eq (t : Int) (m : WorkingHourManagerV2) (w : World) :
    v2_log t m w =
      (Except.error PyErr.queryError,
       { m with connection := some w.nextConn },
       { w with nextConn := w.nextConn + 1,
                trace := w.trace ++
                  [ConnEvent.opened w.nextConn,
                   ConnEvent.executed w.nextConn logQuery [m._employee_id, t]] }) := by
  unfold v2_log prepare_connection v2_log_body open_connection
  simp only [execInsert_log]
  simp [List.append_assoc, WorkingHourManagerV2.employee_id]

theorem v2_total_eq (m : WorkingHourManagerV2) (w : World) :
    v2_total m w =
      (Except.ok (totalQueryRow w.db m._employee_id),
       { m with connection := some w.nextConn },
       { w with nextConn := w.nextConn + 1,
                trace := w.trace ++
                  [ConnEvent.opened w.nextConn,
                   ConnEvent.executed w.nextConn totalQuery [m._employee_id],
                   ConnEvent.committed w.nextConn,
                   ConnEvent.closed w.nextConn] }) := by
  unfold v2_total prepare_connection v2_total_body open_connection
  simp [List.append_assoc, WorkingHourManagerV2.employee_id]

theorem v2_salary_eq_ok (dfrom dto : Int) (m : WorkingHourManagerV2)
    (w : World) (v : Int)
    (h : salaryCompute w.db m._employee_id dfrom dto = Except.ok v) :
    v2_salary dfrom dto m w =
      (Except.ok v,
       { m with connection := some w.nextConn },
       { w with nextConn := w.nextConn + 1,
                trace := w.trace ++
                  [ConnEvent.opened w.nextConn,
                   ConnEvent.executed w.nextConn salaryQuery
                     [m._employee_id, dfrom, dto, m._employee_id],
                   ConnEvent.committed w.nextConn,
                   ConnEvent.closed w.nextConn] }) := by
  unfold v2_salary prepare_connection v2_salary_body open_connection
  simp only [WorkingHourManagerV2.employee_id]
  rw [h]
  simp [List.append_assoc]

theorem v2_salary_eq_error (dfrom dto : Int) (m : WorkingHourManagerV2)
    (w : World) (e : PyErr)
    (h : salaryCompute w.db m._employee_id dfrom dto = Except.error e) :
    v2_salary dfrom dto m w =
      (Except.error e,
       { m with connection := some w.nextConn },
       { w with nextConn := w.nextConn + 1,
                trace := w.trace ++
                  [ConnEvent.opened w.nextConn,
                   ConnEvent.executed w.nextConn salaryQuery
                     [m._employee_id, dfrom, dto, m._employee_id]] }) := by
  unfold v2_salary prepare_connection v2_salary_body open_connection
  simp only [WorkingHourManagerV2.employee_id]
  rw [h]
  simp [List.append_assoc]

theorem logQuery_ne_salaryQuery : (logQuery == salaryQuery) = false := by decide

theorem totalQuery_ne_salaryQuery : (totalQuery == salaryQuery) = false := by decide

theorem salaryQuery_beq_self : (salaryQuery == salaryQuery) = true := by decide

theorem filter_sum_foldr (l : List WorkingLogRow) (eid dfrom dto : Int) :
    ((l.filter (fun r =>
        r.employee_id == eid &&
        decide (dfrom ≤ r.time_in_seconds) &&
        decide (r.time_in_seconds ≤ dto))).map (fun r => r.time_in_seconds)).sum
      = l.foldr
          (fun r acc =>
            if r.employee_id = eid ∧ dfrom ≤ r.time_in_seconds ∧ r.time_in_seconds ≤ dto
            then r.time_in_seconds + acc
            else acc) 0 := by
  induction l with
  | nil => rfl
  | cons r l ih =>
    simp only [List.filter_cons, List.foldr_cons]
    by_cases h1 : r.employee_id = eid
    · by_cases h2 : dfrom ≤ r.time_in_seconds
      · by_cases h3 : r.time_in_seconds ≤ dto
        · simp [h1, h2, h3, ih]
        · simp [h1, h2, h3, ih]
      · simp [h1, h2, ih]
    · simp [h1, ih]

theorem sqlSum_some (l : List Int) (s : Int) (h : sqlSum l = some s) :
    s = l.sum := by
  cases l with
  | nil => simp [sqlSum] at h
  | cons a t =>
    simp only [sqlSum] at h
    exact (Option.some.inj h).symm

theorem sumInRange_some (db : Database) (eid dfrom dto s : Int)
    (h : sumInRange db eid dfrom dto = some s) :
    s = rangeTimeSpec db eid dfrom dto := by
  unfold sumInRange at h
  unfold rangeTimeSpec
  rw [← filter_sum_foldr]
  exact sqlSum_some _ _ h

theorem eventCount_zero_of_all_exec (p : ConnEvent → Bool)
    (hp : ∀ e, ConnEvent.isExec e = true → p e = false) :
    ∀ es : List ConnEvent, es.all ConnEvent.isExec = true → eventCount p es = 0 := by
  intro es
  induction es with
  | nil => intro _; rfl
  | cons e es ih =>
    intro h
    rw [List.all_cons, Bool.and_eq_true] at h
    unfold eventCount
    rw [List.filter_cons, hp e h.1]
    exact ih h.2

theorem v1_step_trace (m : WorkingHourManagerV1) (w : World) (op : Op) :
    ∃ q ps,
      (v1_step m w op).trace
        = w.trace ++ [ConnEvent.executed m._connection q ps] ∧
      bindsEmployee m._employee_id (ConnEvent.executed m._connection q ps) = true := by
  cases op with
  | log t =>
    refine ⟨logQuery, [m._employee_id, t], ?_, ?_⟩
    · rw [v1_step, v1_log_eq]
    · simp [bindsEmployee, logQuery_ne_salaryQuery]
  | total =>
    refine ⟨totalQuery, [m._employee_id], ?_, ?_⟩
    · rw [v1_step, v1_total_eq]
    · simp [bindsEmployee, totalQuery_ne_salaryQuery]
  | salary dfrom dto =>
    refine ⟨salaryQuery, [m._employee_id, dfrom, dto, m._employee_id], ?_, ?_⟩
    · rw [v1_step, v1_salary_eq]
    · simp [bindsEmployee, salaryQuery_beq_self]

theorem v1_run_shape (m : WorkingHourManagerV1) (ops : List Op) :
    ∀ w : World, ∃ es : List ConnEvent,
      (v1_run m w ops).trace = w.trace ++ es ∧
      es.all ConnEvent.isExec = true ∧
      execsOnConn m._connection es = true ∧
      es.all (bindsEmployee m._employee_id) = true := by
  induction ops with
  | nil => intro w; exact ⟨[], by simp [v1_run], rfl, rfl, rfl⟩
  | cons op ops ih =>
    intro w
    obtain ⟨q, ps, hstep, hbind⟩ := v1_step_trace m w op
    obtain ⟨es, hrun, hexec, hconn, hbindall⟩ := ih (v1_step m w op)
    refine ⟨ConnEvent.executed m._connection q ps :: es, ?_, ?_, ?_, ?_⟩
    · show (v1_run m (v1_step m w op) ops).trace = _
      rw [hrun, hstep]
      simp
    · simp [List.all_cons, ConnEvent.isExec, hexec]
    · unfold execsOnConn at hconn ⊢
      simp only [List.all_cons, Bool.and_eq_true]
      exact ⟨by simp, hconn⟩
    · simp [List.all_cons, hbind, hbindall]

theorem v2_step_shape (m : WorkingHourManagerV2) (w : World) (op : Op) :
    ∃ es : List ConnEvent,
      (v2_step (m, w) op).2.trace = w.trace ++ es ∧
      (v2_step (m, w) op).1 = ⟨some w.nextConn, m._employee_id⟩ ∧
      es.all (bindsEmployee m._employee_id) = true ∧
      eventCount ConnEvent.isExec es = 1 := by
  cases op with
  | log t =>
    refine ⟨[ConnEvent.opened w.nextConn,
             ConnEvent.executed w.nextConn logQuery [m._employee_id, t]],
            ?_, ?_, ?_, ?_⟩
    · show (v2_log t m w).2.2.trace = _
      rw [v2_log_eq]
    · show (v2_log t m w).2.1 = _
      rw [v2_log_eq]
    · simp [bindsEmployee, logQuery_ne_salaryQuery]
    · simp [eventCount, ConnEvent.isExec, List.filter]
  | total =>
    refine ⟨[ConnEvent.opened w.nextConn,
             ConnEvent.executed w.nextConn totalQuery [m._employee_id],
             ConnEvent.committed w.nextConn,
             ConnEvent.closed w.nextConn],
            ?_, ?_, ?_, ?_⟩
    · show (v2_total m w).2.2.trace = _
      rw [v2_total_eq]
    · show (v2_total m w).2.1 = _
      rw [v2_total_eq]
    · simp [bindsEmployee, totalQuery_ne_salaryQuery]
    · simp [eventCount, ConnEvent.isExec, List.filter]
  | salary dfrom dto =>
    cases h : salaryCompute w.db m._employee_id dfrom dto with
    | ok v =>
      refine ⟨[ConnEvent.opened w.nextConn,
               ConnEvent.executed w.nextConn salaryQuery
                 [m._employee_id, dfrom, dto, m._employee_id],
               ConnEvent.committed w.nextConn,
               ConnEvent.closed w.nextConn],
              ?_, ?_, ?_, ?_⟩
      · show (v2_salary dfrom dto m w).2.2.trace = _
        rw [v2_salary_eq_ok dfrom dto m w v h]
      · show (v2_salary dfrom dto m w).2.1 = _
        rw [v2_salary_eq_ok dfrom dto m w v h]
      · simp [bindsEmployee, salaryQuery_beq_self]
      · simp [eventCount, ConnEvent.isExec, List.filter]
    | error e =>
      refine ⟨[ConnEvent.opened w.nextConn,
               ConnEvent.executed w.nextConn salaryQuery
                 [m._employee_id, dfrom, dto, m._employee_id]],
              ?_, ?_, ?_, ?_⟩
      · show (v2_salary dfrom dto m w).2.2.trace = _
        rw [v2_salary_eq_error dfrom dto m w e h]
      · show (v2_salary dfrom dto m w).2.1 = _
        rw [v2_salary_eq_error dfrom dto m w e h]
      · simp [bindsEmployee, salaryQuery_beq_self]
      · simp [eventCount, ConnEvent.isExec, List.filter]

theorem v2_run_shape (ops : List Op) :
    ∀ (m : WorkingHourManagerV2) (w : World),
    ∃ (es : List ConnEvent) (conn : Option Nat),
      (v2_run (m, w) ops).2.trace = w.trace ++ es ∧
      (v2_run (m, w) ops).1 = ⟨conn, m._employee_id⟩ ∧
      es.all (bindsEmployee m._employee_id) = true := by
  induction ops with
  | nil =>
    intro m w
    exact ⟨[], m.connection, by simp [v2_run], by simp [v2_run], rfl⟩
  | cons op ops ih =>
    intro m w
    obtain ⟨es0, h1, h2, h3, _⟩ := v2_step_shape m w op
    obtain ⟨es, conn, h4, h5, h6⟩ := ih (v2_step (m, w) op).1 (v2_step (m, w) op).2
    refine ⟨es0 ++ es, conn, ?_, ?_, ?_⟩
    · show (v2_run (v2_step (m, w) op) ops).2.trace = _
      rw [← Prod.mk.eta (p := v2_step (m, w) op)] at h4 ⊢
      rw [h4, h1]
      simp
    · show (v2_run (v2_step (m, w) op) ops).1 = _
      rw [← Prod.mk.eta (p := v2_step (m, w) op)] at h5 ⊢
      rw [h5, h2]
    · rw [List.all_append, Bool.and_eq_true]
      refine ⟨h3, ?_⟩
      rw [h2] at h6
      exact h6

/-! ### Claim theorems -/

/-- Claim C1: after `log(D)` on a manager bound to employee E, a subsequent
`total()` is claimed to reflect D in the aggregate, the INSERT writing to
the same work-log column that total's SUM reads.  The code refutes this:
the INSERT names column `time` while the SUM reads `time_in_seconds` (the
schema's column), so at employee 1 with D = 3600 the insert fails against
the documented schema and the subsequent total is still the NULL
aggregate. -/
theorem log_insert_column_breaks_total :
    insertColumnList logQuery = ["employee_id", "time"] ∧
    workingLogColumns = ["employee_id", "time_in_seconds"] ∧
    (v1_log (v1_init 1 rateOnlyWorld).1 3600 (v1_init 1 rateOnlyWorld).2).1
      = Except.error PyErr.queryError ∧
    (v1_total (v1_init 1 rateOnlyWorld).1
        (v1_log (v1_init 1 rateOnlyWorld).1 3600 (v1_init 1 rateOnlyWorld).2).2).1
      = Except.ok none := by
  refine ⟨?_, ?_, ?_, ?_⟩ <;> decide

/-- Claim C2 counterexample: in the lazy variant a failing operation does
not release its connection.  Lazy `salary` on a store with no rate row for
employee 1 fails with a type error, and the connection opened for the call
is neither committed nor closed — `close()` is not invoked on the failure
exit path, contradicting the claim that release happens on all exit
paths. -/
theorem lazy_salary_failure_leaks_connection :
    (v2_salary 0 10 (v2_init 1) emptyWorld).1 = Except.error PyErr.typeError ∧
    eventCount ConnEvent.isOpen
      (v2_salary 0 10 (v2_init 1) emptyWorld).2.2.trace = 1 ∧
    eventCount ConnEvent.isClose
      (v2_salary 0 10 (v2_init 1) emptyWorld).2.2.trace = 0 ∧
    eventCount ConnEvent.isCommit
      (v2_salary 0 10 (v2_init 1) emptyWorld).2.2.trace = 0 := by
  refine ⟨?_, ?_, ?_, ?_⟩ <;> decide

/-- Claim C2 (amended): in the lazy/call-scoped variant each of the three
operations opens exactly one connection per call; when the wrapped body
returns normally that connection is committed and closed exactly once
before the call completes, but when the body fails the error propagates
with no commit and no close — the release does not happen on the failure
exit path. -/
theorem lazy_release_iff_success (m : WorkingHourManagerV2) (w : World)
    (t dfrom dto : Int) :
    (eventCount ConnEvent.isOpen (traceDelta w (v2_log t m w).2.2) = 1 ∧
     eventCount ConnEvent.isCommit (traceDelta w (v2_log t m w).2.2)
       = (if (v2_log t m w).1.isOk then 1 else 0) ∧
     eventCount ConnEvent.isClose (traceDelta w (v2_log t m w).2.2)
       = (if (v2_log t m w).1.isOk then 1 else 0)) ∧
    (eventCount ConnEvent.isOpen (traceDelta w (v2_total m w).2.2) = 1 ∧
     eventCount ConnEvent.isCommit (traceDelta w (v2_total m w).2.2)
       = (if (v2_total m w).1.isOk then 1 else 0) ∧
     eventCount ConnEvent.isClose (traceDelta w (v2_total m w).2.2)
       = (if (v2_total m w).1.isOk then 1 else 0)) ∧
    (eventCount ConnEvent.isOpen (traceDelta w (v2_salary dfrom dto m w).2.2) = 1 ∧
     eventCount ConnEvent.isCommit (traceDelta w (v2_salary dfrom dto m w).2.2)
       = (if (v2_salary dfrom dto m w).1.isOk then 1 else 0) ∧
     eventCount ConnEvent.isClose (traceDelta w (v2_salary dfrom dto m w).2.2)
       = (if (v2_salary dfrom dto m w).1.isOk then 1 else 0)) := by
  refine ⟨?_, ?_, ?_⟩
  · rw [v2_log_eq]
    simp [traceDelta, List.drop_left, eventCount, List.filter, ConnEvent.isOpen,
      ConnEvent.isCommit, ConnEvent.isClose, Except.isOk, Except.toBool]
  · rw [v2_total_eq]
    simp [traceDelta, List.drop_left, eventCount, List.filter, ConnEvent.isOpen,
      ConnEvent.isCommit, ConnEvent.isClose, Except.isOk, Except.toBool]
  · cases h : salaryCompute w.db m._employee_id dfrom dto with
    | ok v =>
      rw [v2_salary_eq_ok dfrom dto m w v h]
      simp [traceDelta, List.drop_left, eventCount, List.filter, ConnEvent.isOpen,
        ConnEvent.isCommit, ConnEvent.isClose, Except.isOk, Except.toBool]
    | error e =>
      rw [v2_salary_eq_error dfrom dto m w e h]
      simp [traceDelta, List.drop_left, eventCount, List.filter, ConnEvent.isOpen,
        ConnEvent.isCommit, ConnEvent.isClose, Except.isOk, Except.toBool]

/-- Claim C3: for every manager bound to employee E (either variant) and
every range, when E has work-log rows in the inclusive range
[dateFrom, dateTo] and a current hourly rate, `salary(dateFrom, dateTo)`
returns totalTimeInRange * hourlyRate, and the call issues exactly one
statement — the single cross-join query `salaryQuery` of the single-row sum
subquery and the single-row rate subquery. -/
theorem salary_single_query_product (c : Nat) (conn : Option Nat)
    (eid dfrom dto s rate : Int) (w : World)
    (hs : sumInRange w.db eid dfrom dto = some s)
    (hr : hourRateOf w.db eid = some rate) :
    (v1_salary ⟨c, eid⟩ dfrom dto w).1
      = Except.ok (rangeTimeSpec w.db eid dfrom dto * rate) ∧
    traceDelta w (v1_salary ⟨c, eid⟩ dfrom dto w).2
      = [ConnEvent.executed c salaryQuery [eid, dfrom, dto, eid]] ∧
    (v2_salary dfrom dto ⟨conn, eid⟩ w).1
      = Except.ok (rangeTimeSpec w.db eid dfrom dto * rate) ∧
    traceDelta w (v2_salary dfrom dto ⟨conn, eid⟩ w).2.2
      = [ConnEvent.opened w.nextConn,
         ConnEvent.executed w.nextConn salaryQuery [eid, dfrom, dto, eid],
         ConnEvent.committed w.nextConn,
         ConnEvent.closed w.nextConn] := by
  have hs' := sumInRange_some w.db eid dfrom dto s hs
  have hcomp : salaryCompute w.db eid dfrom dto = Except.ok (s * rate) := by
    unfold salaryCompute salaryFetch
    rw [hr, hs]
    rfl
  subst hs'
  refine ⟨?_, ?_, ?_, ?_⟩
  · rw [v1_salary_eq]
    exact hcomp
  · rw [v1_salary_eq]
    exact traceDelta_of_append rfl
  · rw [v2_salary_eq_ok dfrom dto ⟨conn, eid⟩ w _ hcomp]
  · rw [v2_salary_eq_ok dfrom dto ⟨conn, eid⟩ w _ hcomp]
    exact traceDelta_of_append rfl

/-- Witness for claim C3 at the spec's concrete scenario: employee 1 with
rate 20 and 7200 logged seconds in range yields salary 7200 * 20. -/
theorem salary_single_query_product_witness :
    (v1_salary ⟨0, 1⟩ 0 10000 salaryScenarioWorld).1 = Except.ok (7200 * 20) :=
  ((salary_single_query_product 0 none 1 0 10000 7200 20 salaryScenarioWorld
    (by decide) (by decide)).1).trans (by decide)

/-- Claim C4 counterexample: for employee 1 with a current rate of 20 and
zero logged seconds in the requested range, salary does not return a
well-defined absence/zero result: it raises a type error from multiplying
the NULL aggregate by the rate, in both variants. -/
theorem salary_null_times_rate_faults :
    rateOnlyDb.working_log = [] ∧
    salaryCompute rateOnlyDb 1 0 10000 = Except.error PyErr.typeError ∧
    (v1_salary ⟨0, 1⟩ 0 10000 rateOnlyWorld).1 = Except.error PyErr.typeError ∧
    (v2_salary 0 10000 (v2_init 1) rateOnlyWorld).1
      = Except.error PyErr.typeError := by
  refine ⟨?_, ?_, ?_, ?_⟩ <;> decide

/-- Claim C4 (amended): for every manager bound to an employee with zero
logged seconds in the requested range, salary faults with a type error:
the sum subquery yields NULL and multiplying it by the rate is a Python
type error (and when the rate row is missing too, unpacking the absent
cross-join row is equally a type error); no zero/absence value is
returned. -/
theorem salary_zero_rows_type_error (c : Nat) (conn : Option Nat)
    (eid dfrom dto : Int) (w : World)
    (hz : w.db.working_log.filter (fun r =>
        r.employee_id == eid &&
        decide (dfrom ≤ r.time_in_seconds) &&
        decide (r.time_in_seconds ≤ dto)) = []) :
    salaryCompute w.db eid dfrom dto = Except.error PyErr.typeError ∧
    (v1_salary ⟨c, eid⟩ dfrom dto w).1 = Except.error PyErr.typeError ∧
    (v2_salary dfrom dto ⟨conn, eid⟩ w).1 = Except.error PyErr.typeError := by
  have hnone : sumInRange w.db eid dfrom dto = none := by
    unfold sumInRange
    rw [hz]
    rfl
  have hcomp : salaryCompute w.db eid dfrom dto = Except.error PyErr.typeError := by
    unfold salaryCompute salaryFetch
    cases hrate : hourRateOf w.db eid with
    | none => simp [hrate]
    | some r => simp [hrate, hnone]
  refine ⟨hcomp, ?_, ?_⟩
  · rw [v1_salary_eq]
    exact hcomp
  · rw [v2_salary_eq_error dfrom dto ⟨conn, eid⟩ w PyErr.typeError hcomp]

/-- Witness for the amended claim C4: employee 1 with rate 20 and an empty
work log faults with a type error. -/
theorem salary_zero_rows_type_error_witness :
    (v1_salary ⟨0, 1⟩ 0 10000 rateOnlyWorld).1 = Except.error PyErr.typeError :=
  (salary_zero_rows_type_error 0 none 1 0 10000 rateOnlyWorld (by decide)).2.1

/-- Claim C5 counterexample: with no work-log rows, total() does not return
0 (nor any numeric default): it returns the NULL absence value, with no
explicit no-rows handling producing a zero, in both variants. -/
theorem total_no_rows_returns_null :
    emptyDb.working_log = [] ∧
    (v1_total ⟨0, 1⟩ emptyWorld).1 = Except.ok none ∧
    (v2_total (v2_init 1) emptyWorld).1 = Except.ok none ∧
    ((none : SqlVal) == some 0) = false := by
  refine ⟨?_, ?_, ?_, ?_⟩ <;> decide

/-- Claim C5 (amended): for a manager bound to an employee with no work-log
rows, total() does not fault: the aggregate query always yields exactly one
value, the NULL produced by SUM over no rows, and total returns that NULL
absence marker unmodified rather than 0 — the no-rows case is handled only
implicitly by SQL aggregate semantics, with no explicit default in the
code. -/
theorem total_no_rows_null_default (c : Nat) (conn : Option Nat) (eid : Int)
    (w : World)
    (hz : w.db.working_log.filter (fun r => r.employee_id == eid) = []) :
    (v1_total ⟨c, eid⟩ w).1 = Except.ok none ∧
    (v2_total ⟨conn, eid⟩ w).1 = Except.ok none := by
  have ht : totalQueryRow w.db eid = none := by
    unfold totalQueryRow
    rw [hz]
    rfl
  constructor
  · rw [v1_total_eq]
    simp [ht]
  · rw [v2_total_eq]
    simp [ht]

/-- Witness for the amended claim C5: the empty store. -/
theorem total_no_rows_null_default_witness :
    (v1_total ⟨0, 1⟩ emptyWorld).1 = Except.ok none ∧
    (v2_total ⟨none, 1⟩ emptyWorld).1 = Except.ok none :=
  total_no_rows_null_default 0 none 1 emptyWorld (by decide)

/-- Claim C6 counterexample: logging 3600 seconds for employee 1 and then
calling total() does not return 3600 * 3600: the log call fails with a
query error (its INSERT names column `time`, absent from the schema), and
the subsequent total() returns the NULL aggregate, not 3600 * 3600. -/
theorem log_then_total_not_scaled :
    (v2_log 3600 (v2_init 1) emptyWorld).1 = Except.error PyErr.queryError ∧
    (v2_total ((v2_log 3600 (v2_init 1) emptyWorld).2.1)
        ((v2_log 3600 (v2_init 1) emptyWorld).2.2)).1 = Except.ok none ∧
    ((none : SqlVal) == some (3600 * 3600)) = false := by
  refine ⟨?_, ?_, ?_⟩ <;> decide

/-- Claim C6 (amended): given the stated query, total() applies the literal
*60*60 factor to the summed seconds — with a work-log row of 3600 seconds
for employee 1 present in the store, total() returns 3600 * 3600 in both
variants; the preceding log(3600) cannot itself create that row, since its
INSERT names column `time` and fails. -/
theorem total_scales_by_sixty_sixty :
    totalQueryRow logged3600Db 1 = some (3600 * 3600) ∧
    (v1_total ⟨0, 1⟩ logged3600World).1 = Except.ok (some (3600 * 3600)) ∧
    (v2_total (v2_init 1) logged3600World).1
      = Except.ok (some (3600 * 3600)) := by
  refine ⟨?_, ?_, ?_⟩ <;> decide

/-- Claim C7: total() and salary() each issue exactly one query per call,
in both the eager and the lazy variant: the events each call appends to the
trace contain exactly one query execution. -/
theorem one_query_per_operation (c : Nat) (conn : Option Nat)
    (eid dfrom dto : Int) (w : World) :
    eventCount ConnEvent.isExec (traceDelta w (v1_total ⟨c, eid⟩ w).2) = 1 ∧
    eventCount ConnEvent.isExec
      (traceDelta w (v1_salary ⟨c, eid⟩ dfrom dto w).2) = 1 ∧
    eventCount ConnEvent.isExec (traceDelta w (v2_total ⟨conn, eid⟩ w).2.2) = 1 ∧
    eventCount ConnEvent.isExec
      (traceDelta w (v2_salary dfrom dto ⟨conn, eid⟩ w).2.2) = 1 := by
  refine ⟨?_, ?_, ?_, ?_⟩
  · rw [v1_total_eq]
    simp [traceDelta, List.drop_left, eventCount, List.filter, ConnEvent.isExec]
  · rw [v1_salary_eq]
    simp [traceDelta, List.drop_left, eventCount, List.filter, ConnEvent.isExec]
  · rw [v2_total_eq]
    simp [traceDelta, List.drop_left, eventCount, List.filter, ConnEvent.isExec]
  · cases h : salaryCompute w.db eid dfrom dto with
    | ok v =>
      rw [v2_salary_eq_ok dfrom dto ⟨conn, eid⟩ w v h]
      simp [traceDelta, List.drop_left, eventCount, List.filter, ConnEvent.isExec]
    | error e =>
      rw [v2_salary_eq_error dfrom dto ⟨conn, eid⟩ w e h]
      simp [traceDelta, List.drop_left, eventCount, List.filter, ConnEvent.isExec]

/-- Claim C8: in the eager/instance-scoped variant the connection is opened
exactly once, at construction (it is the fresh connection handed out by the
provider at `__init__` time), every subsequent log/total/salary call in the
manager's lifetime executes on that same connection identity, and the
manager never closes it. -/
theorem eager_single_connection_reused (eid : Int) (w : World) (ops : List Op) :
    (v1_init eid w).1._connection = w.nextConn ∧
    eventCount ConnEvent.isOpen
      (traceDelta w (v1_run (v1_init eid w).1 (v1_init eid w).2 ops)) = 1 ∧
    eventCount ConnEvent.isClose
      (traceDelta w (v1_run (v1_init eid w).1 (v1_init eid w).2 ops)) = 0 ∧
    execsOnConn (v1_init eid w).1._connection
      (traceDelta w (v1_run (v1_init eid w).1 (v1_init eid w).2 ops)) = true := by
  obtain ⟨es, htr, hexec, hconn, _⟩ :=
    v1_run_shape (v1_init eid w).1 ops (v1_init eid w).2
  have hinit : (v1_init eid w).2.trace
      = w.trace ++ [ConnEvent.opened w.nextConn] := rfl
  have hdelta : traceDelta w (v1_run (v1_init eid w).1 (v1_init eid w).2 ops)
      = ConnEvent.opened w.nextConn :: es := by
    apply traceDelta_of_append
    rw [htr, hinit]
    simp
  have hopen : eventCount ConnEvent.isOpen es = 0 :=
    eventCount_zero_of_all_exec ConnEvent.isOpen
      (fun e he => by cases e <;> simp_all [ConnEvent.isExec, ConnEvent.isOpen])
      es hexec
  have hclose : eventCount ConnEvent.isClose es = 0 :=
    eventCount_zero_of_all_exec ConnEvent.isClose
      (fun e he => by cases e <;> simp_all [ConnEvent.isExec, ConnEvent.isClose])
      es hexec
  refine ⟨rfl, ?_, ?_, ?_⟩
  · rw [hdelta]
    unfold eventCount at hopen ⊢
    rw [List.filter_cons]
    simp [ConnEvent.isOpen, hopen]
  · rw [hdelta]
    unfold eventCount at hclose ⊢
    rw [List.filter_cons]
    simp [ConnEvent.isClose, hclose]
  · rw [hdelta]
    unfold execsOnConn at hconn ⊢
    rw [List.all_cons, Bool.and_eq_true]
    exact ⟨rfl, hconn⟩

/-- Claim C9: every query issued by every operation, in both variants,
binds the manager's bound employee identifier in each employee-parameter
position of the statement (no cross-employee leakage), and the employee
identifier held by the manager is unchanged by every operation after
construction. -/
theorem employee_binding_invariant (eid : Int) (c : Nat) (conn : Option Nat)
    (w : World) (ops : List Op) :
    (traceDelta w (v1_run ⟨c, eid⟩ w ops)).all (bindsEmployee eid) = true ∧
    WorkingHourManagerV1.employee_id ⟨c, eid⟩ = eid ∧
    (traceDelta w (v2_run (⟨conn, eid⟩, w) ops).2).all (bindsEmployee eid)
      = true ∧
    WorkingHourManagerV2.employee_id (v2_run (⟨conn, eid⟩, w) ops).1 = eid := by
  obtain ⟨es1, h1, _, _, h1b⟩ := v1_run_shape ⟨c, eid⟩ ops w
  obtain ⟨es2, conn2, h2, h2m, h2b⟩ := v2_run_shape ops ⟨conn, eid⟩ w
  refine ⟨?_, rfl, ?_, ?_⟩
  · rw [traceDelta_of_append h1]
    exact h1b
  · rw [traceDelta_of_append h2]
    exact h2b
  · rw [h2m]
    rfl

/-- Claim C10: at module scope the second `class WorkingHourManager`
statement rebinds the name, so after the module loads the name resolves to
the lazy/call-scoped variant, and no module-scope lookup of these class
statements can reach the eager variant. -/
theorem second_class_statement_wins :
    moduleLookup "WorkingHourManager" = some ManagerVariant.lazy ∧
    ∀ n : String,
      moduleLookup n = none ∨ moduleLookup n = some ManagerVariant.lazy := by
  constructor
  · decide
  · intro n
    unfold moduleLookup managerClassStatements
    cases h : ("WorkingHourManager" == n) with
    | false =>
      left
      simp [List.filter, h]
    | true =>
      right
      simp [List.filter, h, List.getLast?]
